import Mathlib

/-!
Verification development for the ExecuTask backend (Go), shallowly embedded
in Lean 4.  The embedding follows the layered design of the repository:
typed models (internal!model!todo, internal!model!category), the data-access
layer (internal!repository!todo.go), the domain-rule layer
(internal!service!todo.go), the SQL error mapping (internal!sqlerr), and the
scheduled due-date-reminders job.  Timestamps are modelled as natural
numbers, UUIDs as natural numbers, and the relational store as lists of
records.  Store and object-store outcomes are passed in explicitly so that
failure paths can be reasoned about.
-/

/-- Task status enumeration, from internal!model!todo (Status constants). -/
inductive Status where
  | draft
  | active
  | completed
  | archived
deriving DecidableEq

/-- Task priority enumeration, from internal!model!todo (Priority constants). -/
inductive Priority where
  | low
  | medium
  | high
deriving DecidableEq

/-- Structured metadata attached to a task, from internal!model!todo (Metadata). -/
structure Metadata where
  tags : List String
  reminder : Option String
  color : Option String
  difficulty : Option String
deriving DecidableEq

/-- Task record, from internal!model!todo (Todo struct, with the embedded
model.Base flattened into id, createdAt, updatedAt). -/
structure Todo where
  id : Nat
  userID : String
  title : String
  description : String
  priority : Priority
  status : Status
  dueDate : Option Nat
  completedAt : Option Nat
  parentTodoID : Option Nat
  categoryID : Option Nat
  metadata : Option Metadata
  sortOrder : Int
  createdAt : Nat
  updatedAt : Nat
deriving DecidableEq

/-- Category record, from internal!model!category (Category struct). -/
structure Category where
  id : Nat
  userID : String
  name : String
  color : String
  description : Option String
  createdAt : Nat
  updatedAt : Nat
deriving DecidableEq

/-- Comment record (fields used by the populated-todo join). -/
structure Comment where
  id : Nat
  todoID : Nat
  userID : String
  content : String
deriving DecidableEq

/-- Create-task command, from internal!model!todo (CreateTodoPayload).  The
optional fields are pointers in Go, hence Option here; the Go zero value of
the Status field stands for an absent status, hence Option Status. -/
structure CreateTodoPayload where
  title : String
  description : String
  priority : Option Priority
  status : Option Status
  dueDate : Option Nat
  parentTodoID : Option Nat
  categoryID : Option Nat
  metadata : Option Metadata
  sortOrder : Int
deriving DecidableEq

/-- CanHaveChildren, from internal!model!todo: a task can own subtasks
exactly when its own parent reference is nil. -/
def Todo.CanHaveChildren (t : Todo) : Bool :=
  t.parentTodoID.isNone

/-- IsOverdue, from internal!model!todo: due date is set, lies strictly in
the past, and the task is not completed (the three Go conjuncts in order;
the getD access stands for the pointer dereference that the nil check
guards). -/
def Todo.IsOverdue (t : Todo) (now : Nat) : Bool :=
  t.dueDate.isSome && decide (t.dueDate.getD 0 < now) && decide (t.status ≠ Status.completed)

/-- MarkComplete, from internal!model!todo: sets the completion timestamp to
the current time and the status to completed. -/
def Todo.MarkComplete (t : Todo) (now : Nat) : Todo :=
  { t with completedAt := some now, status := Status.completed }

/-- HTTP error value, from internal!errs (HTTPError, with the fields the
claims depend on: code, message and HTTP status). -/
structure HTTPError where
  code : String
  message : String
  status : Nat
deriving DecidableEq

/-- NewBadRequestError, from internal!errs: code BAD_REQUEST, status 400. -/
def NewBadRequestError (message : String) : HTTPError :=
  { code := "BAD_REQUEST", message := message, status := 400 }

/-- NewNotFoundError, from internal!errs: code NOT_FOUND, status 404. -/
def NewNotFoundError (message : String) : HTTPError :=
  { code := "NOT_FOUND", message := message, status := 404 }

/-- NewForbiddenError, from internal!errs: code FORBIDDEN, status 403. -/
def NewForbiddenError (message : String) : HTTPError :=
  { code := "FORBIDDEN", message := message, status := 403 }

/-- NewInternalServerError, from internal!errs: code INTERNAL_SERVER_ERROR,
status 500. -/
def NewInternalServerError : HTTPError :=
  { code := "INTERNAL_SERVER_ERROR", message := "Internal Server Error", status := 500 }

/-- Store-level (PostgreSQL driver) error: either a pg error with an
SQLSTATE code, or the pgx no-rows sentinel. -/
inductive PgError where
  | pg (code : String)
  | noRows
deriving DecidableEq

/-- Error value flowing out of the data-access layer towards the domain-rule
layer.  httpErr is a typed domain error from internal!errs; wrapped is a Go
error produced by fmt.Errorf with a percent-w verb, which keeps the
store-level error inside it; external is a wrapped object-store error. -/
inductive RepoError where
  | httpErr (e : HTTPError)
  | wrapped (context : String) (store : PgError)
  | external (message : String)
deriving DecidableEq

/-- An error is a domain error exactly when it is one of the typed HTTP
errors from internal!errs, as opposed to a wrapped store-specific error. -/
def RepoError.isDomainError : RepoError → Bool
  | RepoError.httpErr _ => true
  | RepoError.wrapped _ _ => false
  | RepoError.external _ => false

/-- HandleSQLError, from internal!sqlerr: maps pg constraint violations
(23505 unique, 23503 foreign key, 23502 not null) to BadRequest, the
no-rows sentinel to NotFound, and everything else to Internal. -/
def HandleSQLError (e : PgError) : HTTPError :=
  match e with
  | PgError.pg code =>
    if code = "23505" then NewBadRequestError "Record already exists"
    else if code = "23503" then NewBadRequestError "Referenced record not found"
    else if code = "23502" then NewBadRequestError "Required field missing"
    else NewInternalServerError
  | PgError.noRows => NewNotFoundError "Record not found"

/-- Exact argument list of the INSERT issued by the data-access create, from
internal!repository!todo.go (CreateTodo): the statement names exactly the
columns user_id, title, description, priority, due_date, parent_todo_id,
category_id and metadata, and binds exactly these eight named arguments. -/
structure InsertArgs where
  user_id : String
  title : String
  description : String
  priority : Priority
  due_date : Option Nat
  parent_todo_id : Option Nat
  category_id : Option Nat
  metadata : Option Metadata
deriving DecidableEq

/-- Argument construction of the data-access create, from
internal!repository!todo.go (CreateTodo): priority falls back to medium when
the payload carries none, every other bound column is copied from the
payload; the status and sort-order fields of the payload are not bound. -/
def createTodoArgs (uid : String) (p : CreateTodoPayload) : InsertArgs :=
  { user_id := uid
    title := p.title
    description := p.description
    priority := match p.priority with
      | some pr => pr
      | none => Priority.medium
    due_date := p.dueDate
    parent_todo_id := p.parentTodoID
    category_id := p.categoryID
    metadata := p.metadata }

/-- Modelled from the spec: the status column default of the todos table.
The migration files are not part of the sources here; the spec scenario
states that a created task without a supplied status has status active. -/
def dbDefaultStatus : Status := Status.active

/-- Modelled from the spec: the sort-order column default of the todos
table (an integer; the migration files are not part of the sources here). -/
def dbDefaultSortOrder : Int := 0

/-- Row produced by the single-row INSERT with RETURNING star, from
internal!repository!todo.go (CreateTodo): identifier and both timestamps
are generated by the store, the bound columns come from the arguments, and
the unbound columns (status, completion timestamp, sort order) take their
store defaults. -/
def rowOfArgs (gen now : Nat) (a : InsertArgs) : Todo :=
  { id := gen
    userID := a.user_id
    title := a.title
    description := a.description
    priority := a.priority
    status := dbDefaultStatus
    dueDate := a.due_date
    completedAt := none
    parentTodoID := a.parent_todo_id
    categoryID := a.category_id
    metadata := a.metadata
    sortOrder := dbDefaultSortOrder
    createdAt := now
    updatedAt := now }

/-- Context string of the fmt.Errorf wrapper on a failed create query, from
internal!repository!todo.go (CreateTodo); the Go message glues the wrapped
store error after a colon, which the wrapped constructor keeps separate. -/
def createTodoErrContext (uid title : String) : String :=
  "failed to execute create todo query for user_id=" ++ uid ++ " title=" ++ title

/-- CreateTodo of the data-access layer, from internal!repository!todo.go:
on a store failure the pgx error is wrapped with context via fmt.Errorf
(percent-w) and returned as is, with no row inserted; on success the
returned record is the row produced by RETURNING star, appended to the
table.  The store outcome is passed in explicitly. -/
def TodoRepository.CreateTodo (store : Except PgError Unit) (db : List Todo)
    (gen now : Nat) (uid : String) (p : CreateTodoPayload) :
    Except RepoError Todo × List Todo :=
  match store with
  | Except.error e =>
    (Except.error (RepoError.wrapped (createTodoErrContext uid p.title) e), db)
  | Except.ok _ =>
    let row := rowOfArgs gen now (createTodoArgs uid p)
    (Except.ok row, db ++ [row])

/-- Modelled from the spec: CheckTodoExists of the data-access layer (the
function body is not among the sources; the spec says the parent task is
looked up scoped to the owning principal and the lookup fails with NotFound
if absent, consistent with the GetTodoByID query which filters on both the
identifier and the owner). -/
def TodoRepository.CheckTodoExists (db : List Todo) (uid : String) (todoID : Nat) :
    Except RepoError Todo :=
  match db.find? (fun t => t.id = todoID && t.userID = uid) with
  | some t => Except.ok t
  | none => Except.error (RepoError.httpErr (NewNotFoundError "Todo not found"))

/-- Modelled from the spec: GetCategoryByID of the data-access layer (the
function body is not among the sources; the spec says a category reference
is looked up scoped to the owning principal and fails when absent or not
owned by the principal). -/
def CategoryRepository.GetCategoryByID (cats : List Category) (uid : String) (catID : Nat) :
    Except RepoError Category :=
  match cats.find? (fun c => c.id = catID && c.userID = uid) with
  | some c => Except.ok c
  | none => Except.error (RepoError.httpErr (NewNotFoundError "Category not found"))

/-- Task record populated with its related rows, from internal!model!todo
(PopulatedTodo): the task plus its category, direct children and comments. -/
structure PopulatedTodo where
  todo : Todo
  category : Option Category
  children : List Todo
  comments : List Comment
deriving DecidableEq

/-- GetTodoByID of the data-access layer, from the repository documentation
of internal!repository!todo.go: one query filtered on both the identifier
and the owning principal (WHERE t.id equals the given identifier AND
t.user_id equals the requesting principal), left-joined with the category,
the direct children and the comments; the pgx no-rows outcome becomes
NewNotFoundError with message Todo not found. -/
def TodoRepository.GetTodoByID (db : List Todo) (cats : List Category)
    (comments : List Comment) (uid : String) (todoID : Nat) :
    Except RepoError PopulatedTodo :=
  match db.find? (fun t => t.id = todoID && t.userID = uid) with
  | none => Except.error (RepoError.httpErr (NewNotFoundError "Todo not found"))
  | some t =>
    Except.ok
      { todo := t
        category := match t.categoryID with
          | some cid => cats.find? (fun c => c.id = cid)
          | none => none
        children := db.filter (fun ch => ch.parentTodoID = some t.id)
        comments := comments.filter (fun co => co.todoID = t.id) }

/-- Error message of the subtask-of-subtask rejection, from
internal!service!todo.go (CreateTodo). -/
def parentErrMsg : String :=
  "Parent todo cannot have children (subtasks can\x27t have subtasks)"

/-- Category- and create-delegation tail of the service create, from
internal!service!todo.go (CreateTodo): validate the category reference when
present, then delegate to the data-access create. -/
def TodoService.CreateTodoTail (store : Except PgError Unit) (db : List Todo)
    (cats : List Category) (gen now : Nat) (uid : String) (p : CreateTodoPayload) :
    Except RepoError Todo × List Todo :=
  match p.categoryID with
  | some cid =>
    match CategoryRepository.GetCategoryByID cats uid cid with
    | Except.error e => (Except.error e, db)
    | Except.ok _ => TodoRepository.CreateTodo store db gen now uid p
  | none => TodoRepository.CreateTodo store db gen now uid p

/-- CreateTodo of the domain-rule layer, from internal!service!todo.go: when
a parent reference is present, look the parent up scoped to the owning
principal (propagating a lookup failure), reject with BadRequest when the
parent cannot have children, then validate the category reference and
delegate to the data-access create.  The second component is the todos
table after the call. -/
def TodoService.CreateTodo (store : Except PgError Unit) (db : List Todo)
    (cats : List Category) (gen now : Nat) (uid : String) (p : CreateTodoPayload) :
    Except RepoError Todo × List Todo :=
  match p.parentTodoID with
  | some pid =>
    match TodoRepository.CheckTodoExists db uid pid with
    | Except.error e => (Except.error e, db)
    | Except.ok parent =>
      if parent.CanHaveChildren then
        TodoService.CreateTodoTail store db cats gen now uid p
      else
        (Except.error (RepoError.httpErr (NewBadRequestError parentErrMsg)), db)
  | none => TodoService.CreateTodoTail store db cats gen now uid p

/-- HTTP status chosen by the request-handling layer for the create route,
from the handler documentation (Handle with http.StatusCreated on success)
and the error taxonomy: a typed HTTP error keeps its own status, any other
error is Internal. -/
def TodoHandler.CreateTodoStatus (r : Except RepoError Todo) : Nat :=
  match r with
  | Except.ok _ => 201
  | Except.error (RepoError.httpErr e) => e.status
  | Except.error _ => 500

deriving instance DecidableEq for Except

/-- Modelled from the spec: the status-transition handling of the update
operation (the update path body is not among the sources; the spec says a
status transition to completed sets the completion timestamp and a
transition away from completed clears it).  The set direction agrees with
MarkComplete from internal!model!todo. -/
def TodoService.ApplyStatusTransition (t : Todo) (s : Status) (now : Nat) : Todo :=
  if s = Status.completed then
    { t with status := s, completedAt := some now }
  else
    { t with status := s
             completedAt := if t.status = Status.completed then none else t.completedAt }

/-- Modelled from the spec: the selection predicate of the due-date
reminders job (the GetTodosDueInHours query body is not among the sources;
the spec says the job selects records due within the given window). -/
def dueWithinWindow (t : Todo) (now window : Nat) : Bool :=
  match t.dueDate with
  | some d => now ≤ d && d ≤ now + window
  | none => false

/-- Modelled from the spec: GetTodosDueInHours of the data-access layer
(the query body is not among the sources; the spec says the job selects at
most batch-size-many matching records for the given window). -/
def TodoRepository.GetTodosDueInHours (db : List Todo) (now window cap : Nat) :
    List Todo :=
  (db.filter (fun t => dueWithinWindow t now window)).take cap

/-- Enqueue loop of the due-date reminders job, from the cron documentation
(DueDateRemindersJob.Run): one enqueue attempt per selected record; an
enqueue failure is logged and the loop continues with the next record.
Returns the number of attempts and the number of successful enqueues. -/
def DueDateRemindersJob.EnqueueLoop : List Todo → (Todo → Bool) → Nat × Nat
  | [], _ => (0, 0)
  | t :: rest, enq =>
    let r := DueDateRemindersJob.EnqueueLoop rest enq
    if enq t then (r.1 + 1, r.2 + 1) else (r.1 + 1, r.2)

/-- Run of the due-date reminders job, from the cron documentation
(DueDateRemindersJob.Run): select the batch of due records, then run the
enqueue loop over it.  The enqueue outcome per record is passed in
explicitly. -/
def DueDateRemindersJob.Run (db : List Todo) (now window cap : Nat)
    (enq : Todo → Bool) : Nat × Nat :=
  DueDateRemindersJob.EnqueueLoop (TodoRepository.GetTodosDueInHours db now window cap) enq

/-- Attachment record, from internal!model!todo (TodoAttachment), with the
fields supplied by the upload path. -/
structure TodoAttachment where
  id : Nat
  todoID : Nat
  userID : String
  s3Key : String
  fileName : String
  fileSize : Int
  contentType : String
deriving DecidableEq

/-- DeleteFile of the object-store client, over the key-set model of the
object store: the spec contract of delete is success or failure, so the
outcome is passed in explicitly; on success the key is removed, on failure
the store keeps it. -/
def S3DeleteFile (s3 : List String) (key : String) (outcome : Except String Unit) :
    List String :=
  match outcome with
  | Except.ok _ => s3.filter (fun k => k != key)
  | Except.error _ => s3

/-- UploadTodoAttachment of the domain-rule layer, from the service
documentation of internal!service!todo.go: verify the task exists for the
principal (NotFound otherwise), open the uploaded file (BadRequest on
failure), upload the bytes under a fresh object-store key, then insert the
attachment metadata row; when that insert fails, DeleteFile is invoked on
the just-uploaded key before the insert error is returned, and the outcome
of that DeleteFile call is discarded (the Go code ignores its returned
error).  The object store is the list of stored keys; file-open,
object-store-upload, store-insert and object-store-delete outcomes are
passed in explicitly.  Besides the result and the final store, the list of
keys on which DeleteFile was invoked is returned, so that the delete
attempt itself is observable. -/
def TodoService.UploadTodoAttachment (db : List Todo) (s3 : List String)
    (gen : Nat) (uid : String) (todoID : Nat)
    (key fileName contentType : String) (fileSize : Int)
    (fileOpenOk : Bool) (s3Upload : Except String Unit)
    (dbInsert : Except PgError Unit) (s3Delete : Except String Unit) :
    Except RepoError TodoAttachment × List String × List String :=
  match TodoRepository.CheckTodoExists db uid todoID with
  | Except.error _ =>
    (Except.error (RepoError.httpErr (NewNotFoundError "Todo not found")), s3, [])
  | Except.ok _ =>
    if fileOpenOk = false then
      (Except.error (RepoError.httpErr (NewBadRequestError "Failed to open file")), s3, [])
    else
      match s3Upload with
      | Except.error m =>
        (Except.error (RepoError.external ("failed to upload file to S3: " ++ m)), s3, [])
      | Except.ok _ =>
        let s3u := key :: s3
        match dbInsert with
        | Except.ok _ =>
          (Except.ok
            { id := gen, todoID := todoID, userID := uid, s3Key := key
              fileName := fileName, fileSize := fileSize, contentType := contentType },
            s3u, [])
        | Except.error e =>
          (Except.error (RepoError.wrapped "failed to insert attachment row" e),
            S3DeleteFile s3u key s3Delete, [key])

/-- Fixture: a top-level task owned by principal u1 that is itself a
subtask (its parent reference is non-null). -/
def wParent : Todo :=
  { id := 1, userID := "u1", title := "parent", description := ""
    priority := Priority.medium, status := Status.active, dueDate := none
    completedAt := none, parentTodoID := some 0, categoryID := none
    metadata := none, sortOrder := 0, createdAt := 0, updatedAt := 0 }

/-- Fixture: a create command whose parent reference points at task 1. -/
def wPayload : CreateTodoPayload :=
  { title := "child", description := "", priority := none, status := none
    dueDate := none, parentTodoID := some 1, categoryID := none
    metadata := none, sortOrder := 0 }

/-- Fixture: the create command of the spec scenario, title Buy milk and
priority high, with no status and no due date. -/
def buyMilkPayload : CreateTodoPayload :=
  { title := "Buy milk", description := "", priority := some Priority.high
    status := none, dueDate := none, parentTodoID := none, categoryID := none
    metadata := none, sortOrder := 0 }

/-- Fixture: a create command with no priority supplied. -/
def wPayloadNoPrio : CreateTodoPayload :=
  { title := "plain", description := "", priority := none, status := none
    dueDate := none, parentTodoID := none, categoryID := none
    metadata := none, sortOrder := 0 }

/-- Fixture: a task with identifier 1 owned by a different principal. -/
def wOtherOwner : Todo :=
  { id := 1, userID := "owner", title := "theirs", description := ""
    priority := Priority.low, status := Status.active, dueDate := none
    completedAt := none, parentTodoID := none, categoryID := none
    metadata := none, sortOrder := 0, createdAt := 0, updatedAt := 0 }

/-- Fixture: a completed task whose due date lies in the past. -/
def wCompletedTodo : Todo :=
  { id := 2, userID := "u1", title := "done", description := ""
    priority := Priority.medium, status := Status.completed, dueDate := some 0
    completedAt := some 1, parentTodoID := none, categoryID := none
    metadata := none, sortOrder := 0, createdAt := 0, updatedAt := 0 }

/-- Fixture: an active task due at time 7. -/
def wPlainTodo : Todo :=
  { id := 3, userID := "u1", title := "todo", description := ""
    priority := Priority.medium, status := Status.active, dueDate := some 7
    completedAt := none, parentTodoID := none, categoryID := none
    metadata := none, sortOrder := 0, createdAt := 0, updatedAt := 0 }

/-- Helper: the enqueue loop attempts exactly one enqueue per record. -/
lemma DueDateRemindersJob.enqueueLoop_fst (l : List Todo) (enq : Todo → Bool) :
    (DueDateRemindersJob.EnqueueLoop l enq).1 = l.length := by
  induction l with
  | nil => rfl
  | cons t rest ih =>
    cases h : enq t <;> simp [DueDateRemindersJob.EnqueueLoop, h, ih]

/-- Helper: the enqueue loop counts exactly the records whose enqueue
succeeded, continuing past failures. -/
lemma DueDateRemindersJob.enqueueLoop_snd (l : List Todo) (enq : Todo → Bool) :
    (DueDateRemindersJob.EnqueueLoop l enq).2 = (l.filter enq).length := by
  induction l with
  | nil => rfl
  | cons t rest ih =>
    cases h : enq t <;> simp [DueDateRemindersJob.EnqueueLoop, List.filter_cons, h, ih]

/-- C1: when the parent reference of a create command resolves, scoped to
the owning principal, to a task whose own parent reference is non-null, the
domain-rule create fails with BadRequest whose message carries the phrase
cannot have children, and the task table is left unchanged (the data-access
create is never reached). -/
theorem serviceCreateTodo_subtask_parent_rejected
    (store : Except PgError Unit) (db : List Todo) (cats : List Category)
    (gen now : Nat) (uid : String) (p : CreateTodoPayload) (pid : Nat) (parent : Todo)
    (hp : p.parentTodoID = some pid)
    (hfound : TodoRepository.CheckTodoExists db uid pid = Except.ok parent)
    (hsub : parent.parentTodoID ≠ none) :
    TodoService.CreateTodo store db cats gen now uid p
      = (Except.error (RepoError.httpErr (NewBadRequestError parentErrMsg)), db)
    ∧ ∃ pre post, parentErrMsg = pre ++ "cannot have children" ++ post := by
  have hc : parent.CanHaveChildren = false := by
    unfold Todo.CanHaveChildren
    cases hpp : parent.parentTodoID with
    | none => exact absurd hpp hsub
    | some x => rfl
  constructor
  · simp only [TodoService.CreateTodo, hp, hfound, hc]
    rfl
  · exact ⟨"Parent todo ", " (subtasks can\x27t have subtasks)", by decide⟩

/-- Witness for C1 at a concrete store: the parent with identifier 1 is
itself a subtask, so the create command referencing it is rejected and the
table is unchanged. -/
theorem serviceCreateTodo_subtask_parent_rejected_witness :
    TodoService.CreateTodo (Except.ok ()) [wParent] [] 5 10 "u1" wPayload
      = (Except.error (RepoError.httpErr (NewBadRequestError parentErrMsg)), [wParent])
    ∧ ∃ pre post, parentErrMsg = pre ++ "cannot have children" ++ post :=
  serviceCreateTodo_subtask_parent_rejected (Except.ok ()) [wParent] [] 5 10 "u1"
    wPayload 1 wParent (by decide) (by decide) (by decide)

/-- C2: a read by identifier where a row with the identifier exists but is
owned by a different principal yields the NotFound error, byte-identical to
the outcome on a store with no such row at all, and its status is 404, not
403. -/
theorem getTodoByID_cross_principal_notFound
    (db : List Todo) (cats : List Category) (comments : List Comment)
    (uid : String) (todoID : Nat)
    (_hex : ∃ t ∈ db, t.id = todoID)
    (hother : ∀ t ∈ db, t.id = todoID → t.userID ≠ uid) :
    TodoRepository.GetTodoByID db cats comments uid todoID
      = Except.error (RepoError.httpErr (NewNotFoundError "Todo not found"))
    ∧ TodoRepository.GetTodoByID db cats comments uid todoID
      = TodoRepository.GetTodoByID [] cats comments uid todoID
    ∧ (NewNotFoundError "Todo not found").status = 404
    ∧ (NewNotFoundError "Todo not found").status ≠ 403 := by
  have hfind : db.find? (fun t => t.id = todoID && t.userID = uid) = none := by
    rw [List.find?_eq_none]
    intro t ht
    simp only [Bool.and_eq_true, decide_eq_true_eq, not_and]
    intro h1 h2
    exact hother t ht h1 h2
  refine ⟨?_, ?_, rfl, by decide⟩
  · simp only [TodoRepository.GetTodoByID, hfind]
  · simp only [TodoRepository.GetTodoByID, hfind, List.find?_nil]

/-- Witness for C2: the row with identifier 1 belongs to principal owner,
and the read by principal u2 yields NotFound. -/
theorem getTodoByID_cross_principal_notFound_witness :
    TodoRepository.GetTodoByID [wOtherOwner] [] [] "u2" 1
      = Except.error (RepoError.httpErr (NewNotFoundError "Todo not found"))
    ∧ TodoRepository.GetTodoByID [wOtherOwner] [] [] "u2" 1
      = TodoRepository.GetTodoByID [] [] [] "u2" 1
    ∧ (NewNotFoundError "Todo not found").status = 404
    ∧ (NewNotFoundError "Todo not found").status ≠ 403 :=
  getTodoByID_cross_principal_notFound [wOtherOwner] [] [] "u2" 1
    (by decide) (by decide)

/-- C3: the record inserted and returned by the data-access create has
priority medium when the command carries no priority, and the supplied
priority otherwise. -/
theorem repoCreateTodo_priority_default
    (db : List Todo) (gen now : Nat) (uid : String) (p : CreateTodoPayload) :
    (p.priority = none →
      TodoRepository.CreateTodo (Except.ok ()) db gen now uid p
        = (Except.ok (rowOfArgs gen now (createTodoArgs uid p)),
           db ++ [rowOfArgs gen now (createTodoArgs uid p)])
      ∧ (rowOfArgs gen now (createTodoArgs uid p)).priority = Priority.medium)
    ∧ (∀ pr, p.priority = some pr →
        (rowOfArgs gen now (createTodoArgs uid p)).priority = pr) := by
  constructor
  · intro h
    exact ⟨rfl, by simp [rowOfArgs, createTodoArgs, h]⟩
  · intro pr h
    simp [rowOfArgs, createTodoArgs, h]

/-- Witness for C3: a command without priority yields a medium record, the
Buy milk command with priority high yields a high record. -/
theorem repoCreateTodo_priority_default_witness :
    (rowOfArgs 1 0 (createTodoArgs "u1" wPayloadNoPrio)).priority = Priority.medium
    ∧ (rowOfArgs 1 0 (createTodoArgs "u1" buyMilkPayload)).priority = Priority.high :=
  ⟨((repoCreateTodo_priority_default [] 1 0 "u1" wPayloadNoPrio).1 rfl).2,
   (repoCreateTodo_priority_default [] 1 0 "u1" buyMilkPayload).2 Priority.high rfl⟩

/-- C4: the spec scenario; creating a task with title Buy milk and priority
high and no status succeeds, the handler answers 201, and the created
record has status active, priority high and a null due timestamp. -/
theorem createTodo_buyMilk_scenario :
    (TodoService.CreateTodo (Except.ok ()) [] [] 1 100 "user_1" buyMilkPayload).1
      = Except.ok (rowOfArgs 1 100 (createTodoArgs "user_1" buyMilkPayload))
    ∧ TodoHandler.CreateTodoStatus
        (TodoService.CreateTodo (Except.ok ()) [] [] 1 100 "user_1" buyMilkPayload).1 = 201
    ∧ (rowOfArgs 1 100 (createTodoArgs "user_1" buyMilkPayload)).status = Status.active
    ∧ (rowOfArgs 1 100 (createTodoArgs "user_1" buyMilkPayload)).priority = Priority.high
    ∧ (rowOfArgs 1 100 (createTodoArgs "user_1" buyMilkPayload)).dueDate = none := by
  decide

/-- C5 counterexample: on a store-level uniqueness violation the data-access
create does not return a domain error kind; it returns the fmt.Errorf
wrapper that still carries the pg error, so a store-specific representation
is propagated to the domain-rule layer. -/
theorem repoCreateTodo_store_error_leak_cex :
    TodoRepository.CreateTodo (Except.error (PgError.pg "23505")) [] 1 0 "u1" buyMilkPayload
      = (Except.error (RepoError.wrapped
          "failed to execute create todo query for user_id=u1 title=Buy milk"
          (PgError.pg "23505")), [])
    ∧ (RepoError.wrapped
          "failed to execute create todo query for user_id=u1 title=Buy milk"
          (PgError.pg "23505")).isDomainError = false := by
  decide

/-- C5 as amended: every store error routed through HandleSQLError lands in
the closed taxonomy (BadRequest 400 for the uniqueness, foreign-key and
not-null violation codes, NotFound for the no-rows sentinel, Internal for
everything else); the data-access create, however, does not route its store
errors through this mapping and instead wraps and propagates them. -/
theorem handleSQLError_closed_taxonomy
    (e : PgError) (code : String) (uid : String) (p : CreateTodoPayload)
    (db : List Todo) (gen now : Nat) :
    ((HandleSQLError e).status = 400 ∨ (HandleSQLError e).status = 404
      ∨ (HandleSQLError e).status = 500)
    ∧ ((code = "23505" ∨ code = "23503" ∨ code = "23502") →
        (HandleSQLError (PgError.pg code)).status = 400)
    ∧ HandleSQLError PgError.noRows = NewNotFoundError "Record not found"
    ∧ ((code ≠ "23505" ∧ code ≠ "23503" ∧ code ≠ "23502") →
        HandleSQLError (PgError.pg code) = NewInternalServerError)
    ∧ TodoRepository.CreateTodo (Except.error e) db gen now uid p
        = (Except.error (RepoError.wrapped (createTodoErrContext uid p.title) e), db) := by
  refine ⟨?_, ?_, rfl, ?_, rfl⟩
  · cases e with
    | pg c =>
      simp only [HandleSQLError]
      split_ifs <;> simp [NewBadRequestError, NewInternalServerError]
    | noRows => exact Or.inr (Or.inl rfl)
  · intro h
    rcases h with h | h | h <;> subst h <;> decide
  · intro h
    simp only [HandleSQLError]
    rw [if_neg h.1, if_neg h.2.1, if_neg h.2.2]

/-- Witness for C5 amended: the uniqueness-violation code maps to 400 and a
foreign code maps to Internal. -/
theorem handleSQLError_closed_taxonomy_witness :
    (HandleSQLError (PgError.pg "23505")).status = 400
    ∧ HandleSQLError (PgError.pg "40001") = NewInternalServerError :=
  ⟨(handleSQLError_closed_taxonomy (PgError.pg "23505") "23505" "u" buyMilkPayload [] 0 0).2.1
      (Or.inl rfl),
   (handleSQLError_closed_taxonomy PgError.noRows "40001" "u" buyMilkPayload [] 0 0).2.2.2.1
      ⟨by decide, by decide, by decide⟩⟩

/-- C6: a status transition to completed sets the completion timestamp to
the current time, a transition away from completed clears it to null, and
MarkComplete agrees with the set direction. -/
theorem statusTransition_completedAt (t : Todo) (s : Status) (now : Nat) :
    (s = Status.completed →
      (TodoService.ApplyStatusTransition t s now).completedAt = some now)
    ∧ (t.status = Status.completed → s ≠ Status.completed →
        (TodoService.ApplyStatusTransition t s now).completedAt = none)
    ∧ (Todo.MarkComplete t now).status = Status.completed
    ∧ (Todo.MarkComplete t now).completedAt = some now := by
  refine ⟨?_, ?_, rfl, rfl⟩
  · intro h
    simp [TodoService.ApplyStatusTransition, h]
  · intro ht hs
    simp [TodoService.ApplyStatusTransition, hs, ht]

/-- Witness for C6: moving a completed task to active clears the timestamp,
completing an active task stamps it. -/
theorem statusTransition_completedAt_witness :
    (TodoService.ApplyStatusTransition wCompletedTodo Status.active 9).completedAt = none
    ∧ (TodoService.ApplyStatusTransition wPlainTodo Status.completed 9).completedAt = some 9 :=
  ⟨(statusTransition_completedAt wCompletedTodo Status.active 9).2.1 rfl (by decide),
   (statusTransition_completedAt wPlainTodo Status.completed 9).1 rfl⟩

/-- C7: one job run selects at most cap-many records, attempts exactly one
enqueue per selected record, counts as enqueued exactly the records whose
enqueue succeeded (a failed enqueue does not abort the rest of the batch),
and every selected record matches the window predicate. -/
theorem dueDateReminders_batch_partial_success
    (db : List Todo) (now window cap : Nat) (enq : Todo → Bool) :
    (TodoRepository.GetTodosDueInHours db now window cap).length ≤ cap
    ∧ (DueDateRemindersJob.Run db now window cap enq).1
        = (TodoRepository.GetTodosDueInHours db now window cap).length
    ∧ (DueDateRemindersJob.Run db now window cap enq).2
        = ((TodoRepository.GetTodosDueInHours db now window cap).filter enq).length
    ∧ ∀ t ∈ TodoRepository.GetTodosDueInHours db now window cap,
        dueWithinWindow t now window = true := by
  refine ⟨?_, DueDateRemindersJob.enqueueLoop_fst _ _,
    DueDateRemindersJob.enqueueLoop_snd _ _, ?_⟩
  · unfold TodoRepository.GetTodosDueInHours
    exact List.length_take_le cap _
  · intro t ht
    unfold TodoRepository.GetTodosDueInHours at ht
    have hmem := List.mem_of_mem_take ht
    exact (List.mem_filter.mp hmem).2

/-- Witness for C7: a one-record batch with an always-failing enqueue keeps
the record selected, attempts it once and enqueues nothing. -/
theorem dueDateReminders_batch_partial_success_witness :
    (TodoRepository.GetTodosDueInHours [wPlainTodo] 0 10 5).length ≤ 5
    ∧ (DueDateRemindersJob.Run [wPlainTodo] 0 10 5 (fun _ => false)).1
        = (TodoRepository.GetTodosDueInHours [wPlainTodo] 0 10 5).length
    ∧ dueWithinWindow wPlainTodo 0 10 = true :=
  ⟨(dueDateReminders_batch_partial_success [wPlainTodo] 0 10 5 (fun _ => false)).1,
   (dueDateReminders_batch_partial_success [wPlainTodo] 0 10 5 (fun _ => false)).2.1,
   (dueDateReminders_batch_partial_success [wPlainTodo] 0 10 5 (fun _ => false)).2.2.2
      wPlainTodo (by decide)⟩

/-- C8: the data-access create binds exactly the eight columns of
InsertArgs; the status and sort-order fields of the command are not bound,
so two commands differing only there produce the same insert arguments and
the same create outcome. -/
theorem createTodo_insert_ignores_status_sortOrder
    (uid : String) (p : CreateTodoPayload) (s : Option Status) (o : Int)
    (store : Except PgError Unit) (db : List Todo) (gen now : Nat) :
    createTodoArgs uid { p with status := s, sortOrder := o } = createTodoArgs uid p
    ∧ TodoRepository.CreateTodo store db gen now uid { p with status := s, sortOrder := o }
        = TodoRepository.CreateTodo store db gen now uid p := by
  refine ⟨rfl, ?_⟩
  cases store <;> rfl

/-- C9: a completed task is never overdue, even with a past due date; the
overdue predicate holds exactly on tasks with a non-null past due date
whose status is not completed. -/
theorem isOverdue_completed_never (t : Todo) (now : Nat) :
    (t.status = Status.completed → t.IsOverdue now = false)
    ∧ (t.IsOverdue now = true ↔
        ((∃ d, t.dueDate = some d ∧ d < now) ∧ t.status ≠ Status.completed)) := by
  constructor
  · intro h
    simp [Todo.IsOverdue, h]
  · cases hd : t.dueDate with
    | none => simp [Todo.IsOverdue, hd]
    | some d => simp [Todo.IsOverdue, hd]

/-- Witness for C9: the completed fixture with due date 0 is not overdue at
time 5. -/
theorem isOverdue_completed_never_witness :
    Todo.IsOverdue wCompletedTodo 5 = false :=
  (isOverdue_completed_never wCompletedTodo 5).1 rfl

/-- C10 counterexample: the claim as stated fails when the object-store
delete itself fails, because the code discards the DeleteFile error.  At
this concrete input the upload succeeds, the metadata insert fails, the
delete fails, and the final object store still holds the fresh key k even
though the initial store was empty: the failed attachment creation does
leave a new object-store entry behind. -/
theorem uploadTodoAttachment_delete_failure_cex :
    (TodoService.UploadTodoAttachment [wParent] [] 3 "u1" 1 "k" "f.txt" "text/plain"
        10 true (Except.ok ()) (Except.error (PgError.pg "23505"))
        (Except.error "s3 unavailable")).2.1 = ["k"]
    ∧ (["k"] : List String) ≠ ([] : List String) := by
  decide

/-- C10 as amended: when the object-store upload succeeds and the metadata
insert fails, the upload path invokes exactly one object-store delete, on
the just-uploaded key, before returning the wrapped insert error; the
outcome of that delete is discarded, and whenever the delete succeeds the
object store is back to its initial key set, so no new entry remains. -/
theorem uploadTodoAttachment_rollback
    (db : List Todo) (s3 : List String) (gen : Nat) (uid : String) (todoID : Nat)
    (key fileName contentType : String) (fileSize : Int) (e : PgError) (t : Todo)
    (sdel : Except String Unit)
    (hfound : TodoRepository.CheckTodoExists db uid todoID = Except.ok t)
    (hfresh : key ∉ s3) :
    (TodoService.UploadTodoAttachment db s3 gen uid todoID key fileName contentType
        fileSize true (Except.ok ()) (Except.error e) sdel).1
      = Except.error (RepoError.wrapped "failed to insert attachment row" e)
    ∧ (TodoService.UploadTodoAttachment db s3 gen uid todoID key fileName contentType
        fileSize true (Except.ok ()) (Except.error e) sdel).2.2 = [key]
    ∧ (sdel = Except.ok () →
        (TodoService.UploadTodoAttachment db s3 gen uid todoID key fileName contentType
            fileSize true (Except.ok ()) (Except.error e) sdel).2.1 = s3) := by
  have hstep :
      TodoService.UploadTodoAttachment db s3 gen uid todoID key fileName contentType
        fileSize true (Except.ok ()) (Except.error e) sdel
      = (Except.error (RepoError.wrapped "failed to insert attachment row" e),
         S3DeleteFile (key :: s3) key sdel, [key]) := by
    unfold TodoService.UploadTodoAttachment
    rw [hfound]
    rfl
  have h1 : (key :: s3).filter (fun k => k != key) = s3.filter (fun k => k != key) := by
    apply List.filter_cons_of_neg
    simp
  have h2 : s3.filter (fun k => k != key) = s3 := by
    apply List.filter_eq_self.mpr
    intro a ha
    simp only [bne_iff_ne, ne_eq]
    exact fun hEq => hfresh (hEq ▸ ha)
  refine ⟨by rw [hstep], by rw [hstep], ?_⟩
  intro hdel
  rw [hstep]
  show S3DeleteFile (key :: s3) key sdel = s3
  rw [hdel]
  show (key :: s3).filter (fun k => k != key) = s3
  exact h1.trans h2

/-- Witness for C10 as amended: task 1 of principal u1, fresh key k over an
empty object store, failing metadata insert and succeeding delete: the
wrapped error is returned, exactly one delete of k is issued, and the
object store is empty again. -/
theorem uploadTodoAttachment_rollback_witness :
    (TodoService.UploadTodoAttachment [wParent] [] 3 "u1" 1 "k" "f.txt" "text/plain"
        10 true (Except.ok ()) (Except.error (PgError.pg "23505")) (Except.ok ())).1
      = Except.error (RepoError.wrapped "failed to insert attachment row" (PgError.pg "23505"))
    ∧ (TodoService.UploadTodoAttachment [wParent] [] 3 "u1" 1 "k" "f.txt" "text/plain"
        10 true (Except.ok ()) (Except.error (PgError.pg "23505")) (Except.ok ())).2.2 = ["k"]
    ∧ (TodoService.UploadTodoAttachment [wParent] [] 3 "u1" 1 "k" "f.txt" "text/plain"
        10 true (Except.ok ()) (Except.error (PgError.pg "23505")) (Except.ok ())).2.1 = [] :=
  ⟨(uploadTodoAttachment_rollback [wParent] [] 3 "u1" 1 "k" "f.txt" "text/plain" 10
      (PgError.pg "23505") wParent (Except.ok ()) (by decide) (by decide)).1,
   (uploadTodoAttachment_rollback [wParent] [] 3 "u1" 1 "k" "f.txt" "text/plain" 10
      (PgError.pg "23505") wParent (Except.ok ()) (by decide) (by decide)).2.1,
   (uploadTodoAttachment_rollback [wParent] [] 3 "u1" 1 "k" "f.txt" "text/plain" 10
      (PgError.pg "23505") wParent (Except.ok ()) (by decide) (by decide)).2.2 rfl⟩
